import Mathlib

/-!
Verification development for the env-payment-forge payment-orchestration core.

The definitions below are a shallow embedding of the TypeScript sources:

* `src/types/common.ts` / `src/types/transaction.ts` — enums, `Result`,
  `Transaction`, configuration shapes;
* `src/types/payment.ts` — `PaymentRequest`, `PaymentMethod`, `RiskAssessment`;
* `src/errors/payment.ts` (shipped as part of `src/types/provider.ts` here) —
  the `PaymentError` hierarchy and `toPaymentError`;
* `src/core/payment_processor.ts` — the `PaymentProcessor` orchestration
  methods (`processPayment`, `capturePayment`, `cancelPayment`, `assessRisk`,
  `initialize`, `validateConfig`).

External collaborators that are not part of the sources
(`PaymentMethodManager.getPaymentMethod`, `TransactionManager.getTransaction`,
`ProviderRegistry.getProvider`, `FraudDetector.assessRisk`,
`validatePaymentRequest`, and the concrete providers) are modelled as an
environment of function parameters (`Env`); their observable behaviour is
whatever envelope they return.  Side effects (provider dispatch and
persistence writes) are made explicit as an `Effect` trace so their absence
is provable.  JavaScript numbers are embedded as `ℚ` (risk scores) and `Int`
(amounts); JavaScript truthiness of strings/numbers is modelled explicitly
where the source relies on it.
-/

namespace PaymentForge

/-- Payment method types, from `src/types/common.ts` (`PaymentMethodType`). -/
inductive PaymentMethodType where
  | card
  | bank_account
  | ach
  | sepa
  | digital_wallet
  | crypto
deriving DecidableEq, Repr

/-- The string of a payment method type as it appears in messages. -/
def pmTypeString : PaymentMethodType → String
  | .card => "card"
  | .bank_account => "bank_account"
  | .ach => "ach"
  | .sepa => "sepa"
  | .digital_wallet => "digital_wallet"
  | .crypto => "crypto"

/-- Transaction statuses, from `src/types/common.ts` (`TransactionStatus`). -/
inductive TransactionStatus where
  | initialized
  | pending
  | authorized
  | captured
  | failed
  | declined
  | refunded
  | partiallyRefunded
  | disputed
  | canceled
  | expired
deriving DecidableEq, Repr

/-- The string of a transaction status as it appears in messages. -/
def statusString : TransactionStatus → String
  | .initialized => "initialized"
  | .pending => "pending"
  | .authorized => "authorized"
  | .captured => "captured"
  | .failed => "failed"
  | .declined => "declined"
  | .refunded => "refunded"
  | .partiallyRefunded => "partially_refunded"
  | .disputed => "disputed"
  | .canceled => "canceled"
  | .expired => "expired"

/-- Risk levels, from `src/types/common.ts` (`RiskLevel`). -/
inductive RiskLevel where
  | low
  | medium
  | high
deriving DecidableEq, Repr

/-- A contributing factor of a risk assessment (`RiskAssessment.factors`
in `src/types/payment.ts`). -/
structure RiskFactor where
  name : String
  description : String
  impact : ℚ
deriving DecidableEq, Repr

/-- Recommendation types of a risk assessment
(`RiskAssessment.recommendations[].type` in `src/types/payment.ts`). -/
inductive RecommendationType where
  | block
  | review
  | additional_verification
  | allow
deriving DecidableEq, Repr

/-- A recommendation of a risk assessment (`RiskAssessment.recommendations`
in `src/types/payment.ts`). -/
structure Recommendation where
  type : RecommendationType
  description : String
deriving DecidableEq, Repr

/-- Risk assessment result, from `src/types/payment.ts` (`RiskAssessment`).
The score is a JavaScript number in `[0,1]`, embedded as `ℚ`. -/
structure RiskAssessment where
  score : ℚ
  level : RiskLevel
  factors : List RiskFactor
  recommendations : List Recommendation
  triggeredRules : List String
deriving DecidableEq, Repr

/-- Detail payload attached to a `PaymentError`
(`details?: Record<string, unknown>` in `src/errors/payment.ts`).
`originalError objId` stands for the object `\x7b originalError: error \x7d`
built by `toPaymentError` for a non-null, non-Error object; opaque objects
are identified by a tag. -/
inductive ErrorDetails where
  | originalError (objId : Nat)
  | custom (tag : Nat)
deriving DecidableEq, Repr

/-- Cause chained onto a `PaymentError` (`cause?: Error`).  A plain
JavaScript `Error` is observable through its message. -/
inductive ErrorCause where
  | errorCause (message : String)
deriving DecidableEq, Repr

/-- The `PaymentError` class of `src/errors/payment.ts`, flattened to its
observable fields. -/
structure PaymentErrorData where
  message : String
  code : String
  statusCode : Int
  retryable : Bool
  details : Option ErrorDetails
  cause : Option ErrorCause
deriving DecidableEq, Repr

/-- The `PaymentError` constructor with all options omitted: the defaults
`code = "payment_error"`, `statusCode = 500`, `retryable = false` apply
(`src/errors/payment.ts`, constructor of `PaymentError`). -/
def mkPaymentError (message : String) : PaymentErrorData :=
  { message := message
    code := "payment_error"
    statusCode := 500
    retryable := false
    details := none
    cause := none }

/-- A JavaScript value as far as `toPaymentError` can distinguish inputs:
an already-typed `PaymentError`, a plain `Error` (observable message), a
string, a non-null object that is not an `Error` (opaque, tagged by an id),
or any remaining primitive (`null`, `undefined`, numbers, booleans). -/
inductive JSValue where
  | paymentErrorVal : PaymentErrorData → JSValue
  | errorVal : String → JSValue
  | strVal : String → JSValue
  | objVal : Nat → JSValue
  | nullVal : JSValue
  | otherPrim : JSValue
deriving DecidableEq, Repr

/-- `toPaymentError` from `src/errors/payment.ts`: coerce any raised value
to a `PaymentError`.  The branches mirror the source `if` chain:
`instanceof PaymentError`, `instanceof Error` (where `error.message ||
defaultMessage` treats the empty message as falsy), `typeof error ===
'string'`, and the final generic branch whose `details` is populated only
for a non-null object. -/
def toPaymentError (error : JSValue) (defaultMessage : String) : PaymentErrorData :=
  match error with
  | .paymentErrorVal e => e
  | .errorVal m =>
      { mkPaymentError (if m = "" then defaultMessage else m) with
          cause := some (.errorCause m) }
  | .strVal s => mkPaymentError s
  | .objVal objId =>
      { mkPaymentError defaultMessage with details := some (.originalError objId) }
  | .nullVal => mkPaymentError defaultMessage
  | .otherPrim => mkPaymentError defaultMessage

/-- The default message used at every `toPaymentError(error)` call site
that omits the second argument. -/
def unknownErrorMessage : String := "An unknown error occurred"

/-- The `Result<T>` envelope of `src/types/common.ts`: success flag plus
optional data, typed error, error code and error message. -/
structure Result (α : Type) where
  success : Bool
  data : Option α
  error : Option PaymentErrorData
  errorCode : Option String
  errorMessage : Option String
deriving DecidableEq, Repr

/-- A successful envelope carrying data and nothing else
(the literal `\x7b success: true, data \x7d`). -/
def okResult {α : Type} (a : α) : Result α :=
  { success := true, data := some a, error := none, errorCode := none,
    errorMessage := none }

/-- A failure envelope carrying only an error code and message (the shape of
every early-return failure in `payment_processor.ts`). -/
def failResult {α : Type} (code msg : String) : Result α :=
  { success := false, data := none, error := none, errorCode := some code,
    errorMessage := some msg }

/-- The envelope built in every `catch` block of `payment_processor.ts`:
`\x7b success: false, error, errorCode: error.code, errorMessage:
error.message \x7d` for the converted `PaymentError`. -/
def caughtResult {α : Type} (e : PaymentErrorData) : Result α :=
  { success := false, data := none, error := some e, errorCode := some e.code,
    errorMessage := some e.message }

/-- One event of a transaction timeline, from `src/types/transaction.ts`
(`TransactionEvent`). -/
structure TransactionEvent where
  type : String
  timestamp : String
  status : TransactionStatus
deriving DecidableEq, Repr

/-- The `Transaction` record of `src/types/transaction.ts`, restricted to
the fields the orchestrator reads or the claims mention. -/
structure Transaction where
  id : String
  createdAt : String
  updatedAt : String
  status : TransactionStatus
  amount : Int
  originalAmount : Int
  currency : String
  paymentMethodId : String
  paymentMethodType : PaymentMethodType
  customerId : String
  isAuthorizedOnly : Bool
  idempotencyKey : Option String
  riskAssessment : Option RiskAssessment
  timeline : List TransactionEvent
deriving DecidableEq, Repr

/-- The `PaymentRequest` payload of `src/types/payment.ts`, restricted to
the fields the orchestrator reads.  `authorizeOnly?: boolean` is optional in
the source and only ever tested for truthiness, so `undefined` and `false`
coincide and it is embedded as `Bool`. -/
structure PaymentRequest where
  amount : Int
  currency : String
  paymentMethodId : String
  customerId : String
  description : Option String
  authorizeOnly : Bool
  idempotencyKey : Option String
deriving DecidableEq, Repr

/-- A stored payment method (`PaymentMethod` in `src/types/payment.ts`),
restricted to the fields the orchestrator reads. -/
structure PaymentMethod where
  id : String
  type : PaymentMethodType
  customerId : String
  isDefault : Bool
  isValidated : Bool
deriving DecidableEq, Repr

/-- Risk score thresholds (`PaymentConfiguration.fraudDetection.thresholds`
in `src/types/common.ts`); both fields are required numbers when the
object is present. -/
structure RiskThresholds where
  highRisk : ℚ
  mediumRisk : ℚ
deriving DecidableEq, Repr

/-- Fraud detection settings (`PaymentConfiguration.fraudDetection`). -/
structure FraudDetectionConfig where
  enabled : Bool
  thresholds : Option RiskThresholds
deriving DecidableEq, Repr

/-- Provider API keys (`PaymentConfiguration.apiKeys`), restricted to the
keys `registerProviders` consults. -/
structure ApiKeys where
  stripeKey : Option String
  plaidClientId : Option String
  plaidSecret : Option String
deriving DecidableEq, Repr

/-- The `PaymentConfiguration` of `src/types/common.ts`, restricted to the
fields the orchestrator reads.  `environment` and `defaultCurrency` are
strings so that the truthiness checks of `validateConfig` are expressible
(the empty string is the only falsy inhabitant). -/
structure PaymentConfiguration where
  environment : String
  defaultCurrency : String
  apiKeys : ApiKeys
  fraudDetection : Option FraudDetectionConfig
deriving DecidableEq, Repr

/-- JavaScript truthiness of `config.fraudDetection?.enabled`: fraud
detection counts as enabled iff the sub-object is present with
`enabled: true`. -/
def fraudEnabled (cfg : PaymentConfiguration) : Bool :=
  match cfg.fraudDetection with
  | some fd => fd.enabled
  | none => false

/-- The value of `config.fraudDetection.thresholds?.highRisk ?? 0.8` read
inside `assessRisk` (nullish coalescing: only a missing `thresholds`
object falls back to the default). -/
def highRiskThreshold (cfg : PaymentConfiguration) : ℚ :=
  match cfg.fraudDetection with
  | some fd =>
      match fd.thresholds with
      | some t => t.highRisk
      | none => 0.8
  | none => 0.8

/-- The value of `config.fraudDetection.thresholds?.mediumRisk ?? 0.5`
read inside `assessRisk`. -/
def mediumRiskThreshold (cfg : PaymentConfiguration) : ℚ :=
  match cfg.fraudDetection with
  | some fd =>
      match fd.thresholds with
      | some t => t.mediumRisk
      | none => 0.5
  | none => 0.5

/-- JavaScript truthiness of `config.fraudDetection.thresholds?.highRisk`
as tested by the high-risk block in `processPayment` (line 157): the
threshold is truthy iff the `thresholds` object is present and its
`highRisk` number is nonzero (`0` and `NaN` are falsy; `NaN` has no `ℚ`
counterpart). -/
def highRiskConfigured (cfg : PaymentConfiguration) : Bool :=
  match cfg.fraudDetection with
  | some fd =>
      match fd.thresholds with
      | some t => decide (t.highRisk ≠ 0)
      | none => false
  | none => false

/-- A concrete payment provider as the orchestrator sees it
(`PaymentProvider` in `src/types/provider.ts`): the settlement verbs plus
the optional `assessRisk` capability, whose presence is what the
`"assessRisk" in provider && typeof provider.assessRisk === "function"`
probe in `payment_processor.ts` detects. -/
structure ProviderModel where
  processPayment : PaymentRequest → Result Transaction
  authorizePayment : PaymentRequest → Result Transaction
  capturePayment : String → Option Int → Result Transaction
  cancelPayment : String → Result Transaction
  assessRisk : Option (PaymentRequest → Result RiskAssessment)

/-- The collaborators of the `PaymentProcessor` that live outside the
orchestrator source: payment-method lookup (`PaymentMethodManager`),
provider lookup (`ProviderRegistry` via `getProviderForPaymentMethod`),
the internal fraud detector (`FraudDetector.assessRisk`), transaction
lookup (`TransactionManager.getTransaction`), and request validation
(`validatePaymentRequest`, which throws a `ValidationError` on a malformed
request — modelled as returning the error it would throw). -/
structure Env where
  validationError : PaymentRequest → Option PaymentErrorData
  getPaymentMethod : String → Result PaymentMethod
  getProvider : PaymentMethodType → Option ProviderModel
  fraudAssess : PaymentRequest → Result RiskAssessment
  getTransaction : String → Result Transaction

/-- Observable side effects of one orchestrator call: calls into a
provider's money-moving verbs and risk capability, calls into the internal
fraud detector, and persistence writes
(`TransactionManager.saveTransaction` / `updateTransaction`). -/
inductive Effect where
  | providerAssessRisk (request : PaymentRequest)
  | internalAssessRisk (request : PaymentRequest)
  | providerProcess (request : PaymentRequest)
  | providerAuthorize (request : PaymentRequest)
  | providerCapture (transactionId : String) (amount : Option Int)
  | providerCancel (transactionId : String)
  | saveTransaction (tx : Transaction)
  | updateTransaction (tx : Transaction)
deriving DecidableEq, Repr

/-- Whether an effect is a provider settlement-verb call
(process/authorize/capture/cancel dispatch). -/
def Effect.isDispatch : Effect → Bool
  | .providerProcess _ => true
  | .providerAuthorize _ => true
  | .providerCapture _ _ => true
  | .providerCancel _ => true
  | _ => false

/-- Whether an effect is a persistence write. -/
def Effect.isPersist : Effect → Bool
  | .saveTransaction _ => true
  | .updateTransaction _ => true
  | _ => false

/-- The synthetic low-risk assessment returned by `assessRisk` when fraud
detection is disabled (`payment_processor.ts`, lines 577-588). -/
def disabledAssessment : RiskAssessment :=
  { score := 0
    level := .low
    factors := []
    recommendations := [{ type := .allow, description := "Fraud detection disabled" }]
    triggeredRules := [] }

/-- The merge of a provider assessment with the internal assessment
(`payment_processor.ts`, lines 605-646): the combined score is the max of
the two scores, the combined level is derived from the configured
thresholds checked high-then-medium-then-low, and the three lists are
concatenated provider-first. -/
def mergeAssessments (cfg : PaymentConfiguration) (provider own : RiskAssessment) :
    RiskAssessment :=
  let combinedScore := max provider.score own.score
  let combinedLevel : RiskLevel :=
    if combinedScore ≥ highRiskThreshold cfg then .high
    else if combinedScore ≥ mediumRiskThreshold cfg then .medium
    else .low
  { score := combinedScore
    level := combinedLevel
    factors := provider.factors ++ own.factors
    recommendations := provider.recommendations ++ own.recommendations
    triggeredRules := provider.triggeredRules ++ own.triggeredRules }

/-- The body of `PaymentProcessor.assessRisk` (`payment_processor.ts`,
lines 574-664) after the initialization guard.  The nesting mirrors the
source: disabled fast path; then, when the payment method resolves, the
provider is bound and exposes `assessRisk`, and both the provider and the
internal assessment succeed with data, the merged assessment is returned;
every other path falls through to `fraudDetector.assessRisk(request)`
(called a second time when a first internal call already happened). -/
def assessRiskCore (cfg : PaymentConfiguration) (env : Env) (req : PaymentRequest) :
    Result RiskAssessment × List Effect :=
  if fraudEnabled cfg = false then
    (okResult disabledAssessment, [])
  else
    match (env.getPaymentMethod req.paymentMethodId).success,
          (env.getPaymentMethod req.paymentMethodId).data with
    | true, some method =>
        match env.getProvider method.type with
        | some provider =>
            match provider.assessRisk with
            | some providerAssess =>
                match (providerAssess req).success, (providerAssess req).data with
                | true, some providerData =>
                    match (env.fraudAssess req).success, (env.fraudAssess req).data with
                    | true, some ownData =>
                        (okResult (mergeAssessments cfg providerData ownData),
                         [.providerAssessRisk req, .internalAssessRisk req])
                    | _, _ =>
                        (env.fraudAssess req,
                         [.providerAssessRisk req, .internalAssessRisk req,
                          .internalAssessRisk req])
                | _, _ =>
                    (env.fraudAssess req,
                     [.providerAssessRisk req, .internalAssessRisk req])
            | none => (env.fraudAssess req, [.internalAssessRisk req])
        | none => (env.fraudAssess req, [.internalAssessRisk req])
    | _, _ => (env.fraudAssess req, [.internalAssessRisk req])

/-- A provider result `Result<Transaction>` viewed as the return value of
`processPayment`.  `tx` is an actual transaction; `riskWrapper` is the
`\x7b riskAssessment \x7d as unknown as Transaction` object produced by the
high-risk rejection. -/
inductive TxData where
  | tx : Transaction → TxData
  | riskWrapper : RiskAssessment → TxData
deriving DecidableEq, Repr

/-- A provider envelope returned verbatim by `processPayment` (only the
data payload changes type, to record the cast). -/
def liftTx (r : Result Transaction) : Result TxData :=
  { success := r.success
    data := r.data.map TxData.tx
    error := r.error
    errorCode := r.errorCode
    errorMessage := r.errorMessage }

/-- The persistence write performed after a settlement-verb call:
`if (result.success && result.data)` the returned transaction is saved
(`saveTransaction` in `processPayment`); otherwise nothing is written. -/
def savedEffects (res : Result Transaction) : List Effect :=
  match res.success, res.data with
  | true, some t => [.saveTransaction t]
  | _, _ => []

/-- The persistence write performed by capture/cancel on success
(`updateTransaction`). -/
def updatedEffects (res : Result Transaction) : List Effect :=
  match res.success, res.data with
  | true, some t => [.updateTransaction t]
  | _, _ => []

/-- The provider-dispatch tail of `processPayment` (`payment_processor.ts`,
lines 170-190): resolve the provider (rejecting with `provider_not_found`),
dispatch to `authorizePayment` or `processPayment` depending on
`request.authorizeOnly`, persist the returned transaction when the envelope
is successful with data, and return the provider envelope.  `accEff` is the
effect trace accumulated by the earlier fraud check. -/
def dispatchPayment (env : Env) (req : PaymentRequest) (mt : PaymentMethodType)
    (accEff : List Effect) : Result TxData × List Effect :=
  match env.getProvider mt with
  | none =>
      (failResult "provider_not_found"
        ("No provider available for payment method type: " ++ pmTypeString mt),
       accEff)
  | some provider =>
      let res := if req.authorizeOnly then provider.authorizePayment req
                 else provider.processPayment req
      let dEff := if req.authorizeOnly then Effect.providerAuthorize req
                  else Effect.providerProcess req
      (liftTx res, accEff ++ [dEff] ++ savedEffects res)

/-- The `errorMessage` of the `fraud_detection_error` envelope:
`riskAssessment.errorMessage || "Could not complete fraud assessment"`
(JavaScript `||`, so a missing or empty message falls back). -/
def fraudDetectionErrorMessage (m : Option String) : String :=
  match m with
  | some s => if s = "" then "Could not complete fraud assessment" else s
  | none => "Could not complete fraud assessment"

/-- The body of `PaymentProcessor.processPayment` (`payment_processor.ts`,
lines 116-201) after the initialization guard: validation (a thrown
`ValidationError` is caught by the surrounding `catch` and converted),
payment-method resolution, the fraud check (failure → `fraud_detection_error`;
combined level `high` with a truthy configured high-risk threshold →
`high_risk_payment` carrying the assessment), then provider dispatch. -/
def processPaymentCore (cfg : PaymentConfiguration) (env : Env) (req : PaymentRequest) :
    Result TxData × List Effect :=
  match env.validationError req with
  | some e => (caughtResult (toPaymentError (.paymentErrorVal e) unknownErrorMessage), [])
  | none =>
      match (env.getPaymentMethod req.paymentMethodId).success,
            (env.getPaymentMethod req.paymentMethodId).data with
      | true, some method =>
          if fraudEnabled cfg then
            if (assessRiskCore cfg env req).1.success = false then
              (failResult "fraud_detection_error"
                 (fraudDetectionErrorMessage (assessRiskCore cfg env req).1.errorMessage),
               (assessRiskCore cfg env req).2)
            else
              match (assessRiskCore cfg env req).1.data with
              | some d =>
                  if d.level = RiskLevel.high ∧ highRiskConfigured cfg then
                    ({ success := false
                       data := some (.riskWrapper d)
                       error := none
                       errorCode := some "high_risk_payment"
                       errorMessage := some "Payment flagged as high risk" },
                     (assessRiskCore cfg env req).2)
                  else
                    dispatchPayment env req method.type (assessRiskCore cfg env req).2
              | none => dispatchPayment env req method.type (assessRiskCore cfg env req).2
          else
            dispatchPayment env req method.type []
      | _, _ =>
          (failResult "payment_method_error"
            "Invalid payment method ID or payment method not found", [])

/-- The body of `PaymentProcessor.capturePayment` (`payment_processor.ts`,
lines 223-286) after the initialization guard: load the transaction
(absent → `transaction_not_found`), enforce that only `authorized`
transactions are capturable (otherwise `invalid_transaction_state` with a
message naming the id and current status, and no further effect), resolve
the provider, delegate, and persist the updated transaction on success. -/
def capturePaymentCore (env : Env) (transactionId : String) (amount : Option Int) :
    Result Transaction × List Effect :=
  match (env.getTransaction transactionId).success,
        (env.getTransaction transactionId).data with
  | true, some transaction =>
      if transaction.status ≠ TransactionStatus.authorized then
        (failResult "invalid_transaction_state"
          ("Transaction with ID " ++ transactionId ++
           " cannot be captured (status: " ++ statusString transaction.status ++ ")"),
         [])
      else
        match env.getProvider transaction.paymentMethodType with
        | none =>
            (failResult "provider_not_found"
              ("No provider available for payment method type: " ++
               pmTypeString transaction.paymentMethodType), [])
        | some provider =>
            let res := provider.capturePayment transactionId amount
            (res, [.providerCapture transactionId amount] ++ updatedEffects res)
  | _, _ =>
      (failResult "transaction_not_found"
        ("Transaction with ID " ++ transactionId ++ " not found"), [])

/-- The body of `PaymentProcessor.cancelPayment` (`payment_processor.ts`,
lines 294-354) after the initialization guard: symmetric to capture, with
cancellation legal only from `initialized`, `authorized` or `pending`. -/
def cancelPaymentCore (env : Env) (transactionId : String) :
    Result Transaction × List Effect :=
  match (env.getTransaction transactionId).success,
        (env.getTransaction transactionId).data with
  | true, some transaction =>
      if transaction.status ≠ TransactionStatus.initialized ∧
         transaction.status ≠ TransactionStatus.authorized ∧
         transaction.status ≠ TransactionStatus.pending then
        (failResult "invalid_transaction_state"
          ("Transaction with ID " ++ transactionId ++
           " cannot be canceled (status: " ++ statusString transaction.status ++ ")"),
         [])
      else
        match env.getProvider transaction.paymentMethodType with
        | none =>
            (failResult "provider_not_found"
              ("No provider available for payment method type: " ++
               pmTypeString transaction.paymentMethodType), [])
        | some provider =>
            let res := provider.cancelPayment transactionId
            (res, [.providerCancel transactionId] ++ updatedEffects res)
  | _, _ =>
      (failResult "transaction_not_found"
        ("Transaction with ID " ++ transactionId ++ " not found"), [])

/-- The mutable state of a `PaymentProcessor` instance that the modelled
operations consult: the `initialized` flag. -/
structure ProcState where
  initialized : Bool
deriving DecidableEq, Repr

/-- The error thrown by `ensureInitialized` (`payment_processor.ts`,
lines 782-788). -/
def notInitializedError : PaymentErrorData :=
  mkPaymentError "Payment processor has not been initialized. Call initialize() first."

/-- Public `assessRisk`: `ensureInitialized` throws past the caller when the
processor is uninitialized (the check sits before the `try` block),
otherwise the body runs. -/
def assessRiskRun (s : ProcState) (cfg : PaymentConfiguration) (env : Env)
    (req : PaymentRequest) :
    Except PaymentErrorData (Result RiskAssessment × List Effect) :=
  if s.initialized then .ok (assessRiskCore cfg env req)
  else .error notInitializedError

/-- Public `processPayment`, with the `ensureInitialized` guard. -/
def processPaymentRun (s : ProcState) (cfg : PaymentConfiguration) (env : Env)
    (req : PaymentRequest) :
    Except PaymentErrorData (Result TxData × List Effect) :=
  if s.initialized then .ok (processPaymentCore cfg env req)
  else .error notInitializedError

/-- Public `capturePayment`, with the `ensureInitialized` guard. -/
def capturePaymentRun (s : ProcState) (env : Env) (transactionId : String)
    (amount : Option Int) :
    Except PaymentErrorData (Result Transaction × List Effect) :=
  if s.initialized then .ok (capturePaymentCore env transactionId amount)
  else .error notInitializedError

/-- Public `cancelPayment`, with the `ensureInitialized` guard. -/
def cancelPaymentRun (s : ProcState) (env : Env) (transactionId : String) :
    Except PaymentErrorData (Result Transaction × List Effect) :=
  if s.initialized then .ok (cancelPaymentCore env transactionId)
  else .error notInitializedError

/-- JavaScript truthiness of an optional string configuration key:
present and non-empty. -/
def truthyKey (k : Option String) : Bool :=
  match k with
  | some s => decide (s ≠ "")
  | none => false

/-- One step of the initialization sequence: a provider registration
(`ProviderRegistry.registerProvider`) or a component `initialize()` call. -/
inductive InitEffect where
  | registerProvider (t : PaymentMethodType) (providerName : String)
  | initComponent (name : String)
deriving DecidableEq, Repr

/-- The registrations performed by `registerProviders`
(`payment_processor.ts`, lines 712-757): a card provider always (Stripe
when a Stripe key is configured, otherwise the generic one), the Plaid ACH
adapter when both Plaid keys are configured, and the SEPA provider when a
Stripe key is configured. -/
def registerProvidersEffects (cfg : PaymentConfiguration) : List InitEffect :=
  (if truthyKey cfg.apiKeys.stripeKey then
     [.registerProvider .card "StripeCardAdapter"]
   else
     [.registerProvider .card "GenericCardProvider"]) ++
  (if truthyKey cfg.apiKeys.plaidClientId ∧ truthyKey cfg.apiKeys.plaidSecret then
     [.registerProvider .ach "PlaidBankAdapter"]
   else []) ++
  (if truthyKey cfg.apiKeys.stripeKey then
     [.registerProvider .sepa "SEPAProvider"]
   else [])

/-- The component initializations performed by `initialize`
(`payment_processor.ts`, lines 95-100), in source order. -/
def componentInitEffects : List InitEffect :=
  [.initComponent "TransactionManager",
   .initComponent "PaymentMethodManager",
   .initComponent "RecurringBillingManager",
   .initComponent "RefundProcessor",
   .initComponent "DisputeManager",
   .initComponent "FraudDetector"]

/-- `PaymentProcessor.initialize` (`payment_processor.ts`, lines 83-108):
an immediate return when already initialized; otherwise provider
registration and component initialization run in sequence and the
`initialized` flag is set.  `failure`, when present, stands for a failure
thrown by some step of that sequence (collaborator internals are outside
the sources): the thrown value is converted with
`toPaymentError(error, "Failed to initialize PaymentProcessor")` and
rethrown, the flag stays unset, and the effects performed up to the failing
step are whatever the environment says they were. -/
def initializeProcessor (cfg : PaymentConfiguration)
    (failure : Option (JSValue × List InitEffect)) (s : ProcState) :
    Except PaymentErrorData ProcState × List InitEffect :=
  if s.initialized then (.ok s, [])
  else
    match failure with
    | some (e, doneEffects) =>
        (.error (toPaymentError e "Failed to initialize PaymentProcessor"), doneEffects)
    | none =>
        (.ok { initialized := true },
         registerProvidersEffects cfg ++ componentInitEffects)

/-- `PaymentProcessor.validateConfig` (`payment_processor.ts`, lines
673-707): reject a falsy environment, default currency, or missing API
keys with a `ConfigurationError`; default the fraud thresholds to
`highRisk 0.8 / mediumRisk 0.5` when fraud detection is enabled without
thresholds.  (The logging default is outside this model; the API-keys
object is a required field of the modelled configuration, so its presence
check is vacuous.) -/
def validateConfig (cfg : PaymentConfiguration) :
    Except PaymentErrorData PaymentConfiguration :=
  if cfg.environment = "" then
    .error { mkPaymentError "Environment is required in payment configuration" with
               code := "configuration_error" }
  else if cfg.defaultCurrency = "" then
    .error { mkPaymentError "Default currency is required in payment configuration" with
               code := "configuration_error" }
  else
    match cfg.fraudDetection with
    | some fd =>
        if fd.enabled ∧ fd.thresholds = none then
          let defaults : RiskThresholds := { highRisk := 0.8, mediumRisk := 0.5 }
          let fd2 : FraudDetectionConfig := { fd with thresholds := some defaults }
          .ok { cfg with fraudDetection := some fd2 }
        else .ok cfg
    | none => .ok cfg

/-! ## Concrete fixtures used by the witness theorems -/

/-- An initialized processor state. -/
def procInit : ProcState := { initialized := true }

/-- A sample payment request (the scenario request of the specification). -/
def sampleRequest : PaymentRequest :=
  { amount := 1999, currency := "USD", paymentMethodId := "pm_1",
    customerId := "cust_1", description := none, authorizeOnly := false,
    idempotencyKey := none }

/-- A sample stored card payment method. -/
def sampleMethod : PaymentMethod :=
  { id := "pm_1", type := .card, customerId := "cust_1", isDefault := true,
    isValidated := true }

/-- A sample transaction in a given status. -/
def sampleTx (st : TransactionStatus) : Transaction :=
  { id := "tx_1", createdAt := "2025-01-01T00:00:00Z",
    updatedAt := "2025-01-01T00:00:00Z", status := st, amount := 1999,
    originalAmount := 1999, currency := "USD", paymentMethodId := "pm_1",
    paymentMethodType := .card, customerId := "cust_1",
    isAuthorizedOnly := false, idempotencyKey := none, riskAssessment := none,
    timeline := [{ type := "created", timestamp := "2025-01-01T00:00:00Z",
                   status := st }] }

/-- A high-risk internal assessment with score 0.9. -/
def highAssessment : RiskAssessment :=
  { score := 9/10, level := .high,
    factors := [{ name := "velocity", description := "too many attempts",
                  impact := 9/10 }],
    recommendations := [{ type := .block, description := "block it" }],
    triggeredRules := ["velocity_rule"] }

/-- A provider whose settlement verbs all succeed and that exposes no risk
capability. -/
def plainProvider : ProviderModel :=
  { processPayment := fun _ => okResult (sampleTx .captured)
    authorizePayment := fun _ => okResult (sampleTx .authorized)
    capturePayment := fun _ _ => okResult (sampleTx .captured)
    cancelPayment := fun _ => okResult (sampleTx .canceled)
    assessRisk := none }

/-- A base environment: validation passes, the payment method resolves to
the sample card method, the plain provider is bound to every type, the
internal fraud detector reports the high assessment, and the stored
transaction is captured. -/
def baseEnv : Env :=
  { validationError := fun _ => none
    getPaymentMethod := fun _ => okResult sampleMethod
    getProvider := fun _ => some plainProvider
    fraudAssess := fun _ => okResult highAssessment
    getTransaction := fun _ => okResult (sampleTx .captured) }

/-- A configuration with fraud detection disabled. -/
def cfgDisabled : PaymentConfiguration :=
  { environment := "sandbox", defaultCurrency := "USD",
    apiKeys := { stripeKey := some "sk_test", plaidClientId := none,
                 plaidSecret := none },
    fraudDetection := some { enabled := false, thresholds := none } }

/-- A configuration with fraud detection enabled and the default-shaped
thresholds 0.8 / 0.5. -/
def cfgFraud : PaymentConfiguration :=
  { cfgDisabled with
      fraudDetection :=
        some { enabled := true,
               thresholds := some { highRisk := 8/10, mediumRisk := 5/10 } } }

/-- A configuration with fraud detection enabled whose high-risk threshold
is explicitly configured as 0 (falsy in JavaScript). -/
def cfgZero : PaymentConfiguration :=
  { cfgDisabled with
      fraudDetection :=
        some { enabled := true,
               thresholds := some { highRisk := 0, mediumRisk := 5/10 } } }

/-! ## Shared lemmas -/

/-- The effect trace of `assessRiskCore` only ever contains risk-assessment
calls: no provider settlement dispatch and no persistence write. -/
theorem assessRiskCore_effects_riskOnly (cfg : PaymentConfiguration) (env : Env)
    (req : PaymentRequest) :
    ∀ e ∈ (assessRiskCore cfg env req).2, e.isDispatch = false ∧ e.isPersist = false := by
  unfold assessRiskCore
  repeat' split
  all_goals simp [Effect.isDispatch, Effect.isPersist]

/-! ## Claims -/

/-- C6: `toPaymentError` is total (it is a Lean function on every modelled
JavaScript value) and idempotent: converting the result of a conversion —
under any default message — returns it unchanged, and in particular an
already-typed `PaymentError` is returned as is (same code, statusCode,
retryable, and every other field). -/
theorem toPaymentError_total_idempotent :
    ∀ (v : JSValue) (d1 d2 : String),
      toPaymentError (JSValue.paymentErrorVal (toPaymentError v d1)) d2 =
        toPaymentError v d1 ∧
      ∀ e : PaymentErrorData,
        toPaymentError (JSValue.paymentErrorVal e) d2 = e := by
  intro v d1 d2
  exact ⟨rfl, fun e => rfl⟩

/-- C5: with fraud detection disabled in configuration, `assessRisk` on an
initialized processor returns, with no effect performed (no provider call,
no internal fraud-detector call), a successful envelope holding the fixed
assessment: score 0, level low, empty factors and triggered rules, and the
single `allow` recommendation. -/
theorem assessRisk_disabled_fast_path (s : ProcState) (cfg : PaymentConfiguration)
    (env : Env) (req : PaymentRequest)
    (hInit : s.initialized = true) (hDis : fraudEnabled cfg = false) :
    assessRiskRun s cfg env req =
      .ok ({ success := true
             data := some { score := 0
                            level := .low
                            factors := []
                            recommendations :=
                              [{ type := .allow
                                 description := "Fraud detection disabled" }]
                            triggeredRules := [] }
             error := none
             errorCode := none
             errorMessage := none }, []) := by
  simp [assessRiskRun, hInit, assessRiskCore, hDis, okResult, disabledAssessment]

/-- Witness for C5: the fast path evaluated on the concrete disabled
configuration. -/
theorem assessRisk_disabled_fast_path_witness :
    assessRiskRun procInit cfgDisabled baseEnv sampleRequest =
      .ok ({ success := true
             data := some { score := 0
                            level := .low
                            factors := []
                            recommendations :=
                              [{ type := .allow
                                 description := "Fraud detection disabled" }]
                            triggeredRules := [] }
             error := none
             errorCode := none
             errorMessage := none }, []) :=
  assessRisk_disabled_fast_path procInit cfgDisabled baseEnv sampleRequest rfl rfl

/-- C3: `capturePayment` on a stored transaction whose status is not
`authorized` returns the `invalid_transaction_state` failure envelope whose
message names the transaction id and the current status, and performs no
effect at all: no provider capture call and no persistence update, so the
stored status and timeline are untouched. -/
theorem capturePayment_invalid_state (s : ProcState) (env : Env)
    (transactionId : String) (amount : Option Int) (tx : Transaction)
    (hInit : s.initialized = true)
    (hS : (env.getTransaction transactionId).success = true)
    (hD : (env.getTransaction transactionId).data = some tx)
    (hSt : tx.status ≠ TransactionStatus.authorized) :
    capturePaymentRun s env transactionId amount =
      .ok (failResult "invalid_transaction_state"
        ("Transaction with ID " ++ transactionId ++
         " cannot be captured (status: " ++ statusString tx.status ++ ")"), []) := by
  simp [capturePaymentRun, hInit, capturePaymentCore, hS, hD, hSt]

/-- Witness for C3: a captured transaction cannot be captured again. -/
theorem capturePayment_invalid_state_witness :
    capturePaymentRun procInit baseEnv "tx_1" none =
      .ok (failResult "invalid_transaction_state"
        ("Transaction with ID " ++ "tx_1" ++
         " cannot be captured (status: " ++
         statusString (sampleTx .captured).status ++ ")"), []) :=
  capturePayment_invalid_state procInit baseEnv "tx_1" none (sampleTx .captured)
    rfl rfl rfl (by decide)

/-- C8: `cancelPayment` on a stored transaction whose status is none of
`initialized`, `authorized`, `pending` returns the
`invalid_transaction_state` failure envelope and performs no effect: no
provider cancel call and no persistence update. -/
theorem cancelPayment_invalid_state (s : ProcState) (env : Env)
    (transactionId : String) (tx : Transaction)
    (hInit : s.initialized = true)
    (hS : (env.getTransaction transactionId).success = true)
    (hD : (env.getTransaction transactionId).data = some tx)
    (h1 : tx.status ≠ TransactionStatus.initialized)
    (h2 : tx.status ≠ TransactionStatus.authorized)
    (h3 : tx.status ≠ TransactionStatus.pending) :
    cancelPaymentRun s env transactionId =
      .ok (failResult "invalid_transaction_state"
        ("Transaction with ID " ++ transactionId ++
         " cannot be canceled (status: " ++ statusString tx.status ++ ")"), []) := by
  simp [cancelPaymentRun, hInit, cancelPaymentCore, hS, hD, h1, h2, h3]

/-- Witness for C8: a captured transaction cannot be canceled. -/
theorem cancelPayment_invalid_state_witness :
    cancelPaymentRun procInit baseEnv "tx_1" =
      .ok (failResult "invalid_transaction_state"
        ("Transaction with ID " ++ "tx_1" ++
         " cannot be canceled (status: " ++
         statusString (sampleTx .captured).status ++ ")"), []) :=
  cancelPayment_invalid_state procInit baseEnv "tx_1" (sampleTx .captured)
    rfl rfl rfl (by decide) (by decide) (by decide)

/-- The risk gate of `processPayment` does not reject: either fraud
detection is disabled, or the merged assessment succeeds and is not a
high-level assessment with a truthy configured high-risk threshold. -/
def RiskGatePasses (cfg : PaymentConfiguration) (env : Env) (req : PaymentRequest) :
    Prop :=
  fraudEnabled cfg = false ∨
    ((assessRiskCore cfg env req).1.success = true ∧
     ∀ d, (assessRiskCore cfg env req).1.data = some d →
       ¬(d.level = RiskLevel.high ∧ highRiskConfigured cfg = true))

/-- Reduction of `processPaymentCore` to provider-lookup dispatch when
validation passes, the payment method resolves, and the risk gate lets the
request through. -/
theorem processPaymentCore_gate_open (cfg : PaymentConfiguration) (env : Env)
    (req : PaymentRequest) (m : PaymentMethod)
    (hVal : env.validationError req = none)
    (hPmS : (env.getPaymentMethod req.paymentMethodId).success = true)
    (hPmD : (env.getPaymentMethod req.paymentMethodId).data = some m)
    (hRisk : RiskGatePasses cfg env req) :
    processPaymentCore cfg env req =
      dispatchPayment env req m.type
        (if fraudEnabled cfg then (assessRiskCore cfg env req).2 else []) := by
  cases hFE : fraudEnabled cfg with
  | false => simp [processPaymentCore, hVal, hPmS, hPmD, hFE]
  | true =>
      rcases hRisk with hF | ⟨hS, hB⟩
      · rw [hFE] at hF; exact absurd hF (by simp)
      · cases hData : (assessRiskCore cfg env req).1.data with
        | none => simp [processPaymentCore, hVal, hPmS, hPmD, hFE, hS, hData]
        | some d =>
            have hnb := hB d hData
            simp [processPaymentCore, hVal, hPmS, hPmD, hFE, hS, hData, hnb]

/-- C7: when the resolved payment method's type has no bound provider and
the risk gate does not block the request, `processPayment` returns the
`provider_not_found` failure envelope, and no effect in its trace is a
provider settlement call or a persistence write. -/
theorem processPayment_provider_not_found (s : ProcState)
    (cfg : PaymentConfiguration) (env : Env) (req : PaymentRequest)
    (m : PaymentMethod)
    (hInit : s.initialized = true)
    (hVal : env.validationError req = none)
    (hPmS : (env.getPaymentMethod req.paymentMethodId).success = true)
    (hPmD : (env.getPaymentMethod req.paymentMethodId).data = some m)
    (hProv : env.getProvider m.type = none)
    (hRisk : RiskGatePasses cfg env req) :
    processPaymentRun s cfg env req =
      .ok (failResult "provider_not_found"
        ("No provider available for payment method type: " ++ pmTypeString m.type),
        (if fraudEnabled cfg then (assessRiskCore cfg env req).2 else [])) ∧
    ∀ e ∈ (processPaymentCore cfg env req).2,
      e.isDispatch = false ∧ e.isPersist = false := by
  have hcore := processPaymentCore_gate_open cfg env req m hVal hPmS hPmD hRisk
  rw [dispatchPayment, hProv] at hcore
  constructor
  · simp [processPaymentRun, hInit, hcore]
  · rw [hcore]
    cases hFE : fraudEnabled cfg with
    | false => simp
    | true => simpa using assessRiskCore_effects_riskOnly cfg env req

/-- Witness for C7: the provider registry binds nothing. -/
theorem processPayment_provider_not_found_witness :
    processPaymentRun procInit cfgDisabled
        { baseEnv with getProvider := fun _ => none } sampleRequest =
      .ok (failResult "provider_not_found"
        ("No provider available for payment method type: " ++
         pmTypeString sampleMethod.type),
        (if fraudEnabled cfgDisabled then
           (assessRiskCore cfgDisabled
             { baseEnv with getProvider := fun _ => none } sampleRequest).2
         else [])) ∧
    ∀ e ∈ (processPaymentCore cfgDisabled
             { baseEnv with getProvider := fun _ => none } sampleRequest).2,
      e.isDispatch = false ∧ e.isPersist = false :=
  processPayment_provider_not_found procInit cfgDisabled
    { baseEnv with getProvider := fun _ => none } sampleRequest sampleMethod
    rfl rfl rfl rfl rfl (Or.inl rfl)

/-- C9: when fraud detection is enabled and the risk assessment comes back
as a failure envelope, `processPayment` returns the
`fraud_detection_error` failure envelope (message defaulted when the
assessment had none), and no effect in its trace is a provider settlement
call or a persistence write. -/
theorem processPayment_fraud_detection_error (s : ProcState)
    (cfg : PaymentConfiguration) (env : Env) (req : PaymentRequest)
    (m : PaymentMethod)
    (hInit : s.initialized = true)
    (hVal : env.validationError req = none)
    (hPmS : (env.getPaymentMethod req.paymentMethodId).success = true)
    (hPmD : (env.getPaymentMethod req.paymentMethodId).data = some m)
    (hFE : fraudEnabled cfg = true)
    (hFail : (assessRiskCore cfg env req).1.success = false) :
    processPaymentRun s cfg env req =
      .ok (failResult "fraud_detection_error"
        (fraudDetectionErrorMessage (assessRiskCore cfg env req).1.errorMessage),
        (assessRiskCore cfg env req).2) ∧
    ∀ e ∈ (processPaymentCore cfg env req).2,
      e.isDispatch = false ∧ e.isPersist = false := by
  have hcore : processPaymentCore cfg env req =
      (failResult "fraud_detection_error"
        (fraudDetectionErrorMessage (assessRiskCore cfg env req).1.errorMessage),
       (assessRiskCore cfg env req).2) := by
    simp [processPaymentCore, hVal, hPmS, hPmD, hFE, hFail]
  constructor
  · simp [processPaymentRun, hInit, hcore]
  · rw [hcore]
    simpa using assessRiskCore_effects_riskOnly cfg env req

/-- An environment whose internal fraud detector fails. -/
def envFraudFail : Env :=
  { baseEnv with fraudAssess := fun _ => failResult "fraud_error" "detector offline" }

/-- Witness for C9: a failing internal detector with fraud enabled. -/
theorem processPayment_fraud_detection_error_witness :
    processPaymentRun procInit cfgFraud envFraudFail sampleRequest =
      .ok (failResult "fraud_detection_error"
        (fraudDetectionErrorMessage
          (assessRiskCore cfgFraud envFraudFail sampleRequest).1.errorMessage),
        (assessRiskCore cfgFraud envFraudFail sampleRequest).2) ∧
    ∀ e ∈ (processPaymentCore cfgFraud envFraudFail sampleRequest).2,
      e.isDispatch = false ∧ e.isPersist = false :=
  processPayment_fraud_detection_error procInit cfgFraud envFraudFail sampleRequest
    sampleMethod rfl rfl rfl rfl rfl rfl

/-- Counterexample for C2 as stated: in `cfgZero` a high-risk threshold IS
configured (`highRisk = 0`, a legal value that `validateConfig` keeps), the
risk assessment succeeds with combined level `high`, yet `processPayment`
does not reject with `high_risk_payment` — the block condition tests
JavaScript truthiness of `thresholds?.highRisk`, and `0` is falsy, so the
payment is dispatched to the provider and succeeds. -/
theorem processPayment_high_risk_zero_threshold_cex :
    fraudEnabled cfgZero = true ∧
    Option.bind cfgZero.fraudDetection FraudDetectionConfig.thresholds =
      some { highRisk := 0, mediumRisk := 5/10 } ∧
    validateConfig cfgZero = .ok cfgZero ∧
    (assessRiskCore cfgZero baseEnv sampleRequest).1 = okResult highAssessment ∧
    highAssessment.level = RiskLevel.high ∧
    (processPaymentCore cfgZero baseEnv sampleRequest).1.success = true ∧
    (processPaymentCore cfgZero baseEnv sampleRequest).1.errorCode ≠
      some "high_risk_payment" ∧
    Effect.providerProcess sampleRequest ∈
      (processPaymentCore cfgZero baseEnv sampleRequest).2 := by
  refine ⟨rfl, rfl, rfl, rfl, rfl, rfl, ?_, ?_⟩
  · intro h
    simp [processPaymentCore, cfgZero, cfgDisabled, baseEnv, fraudEnabled,
      assessRiskCore, plainProvider, highRiskConfigured, dispatchPayment,
      liftTx, okResult, savedEffects, sampleTx, sampleRequest] at h
  · simp [processPaymentCore, cfgZero, cfgDisabled, baseEnv, fraudEnabled,
      assessRiskCore, plainProvider, highRiskConfigured, dispatchPayment,
      liftTx, okResult, savedEffects, sampleTx, highAssessment, sampleRequest]

/-- C2 (amended): when fraud detection is enabled, the risk assessment
succeeds with combined level `high`, and the configured high-risk
threshold is truthy (present and nonzero), `processPayment` returns the
`high_risk_payment` failure envelope carrying the assessment, and no
effect in its trace is a provider settlement call or a persistence
write. -/
theorem processPayment_blocks_high_risk (s : ProcState)
    (cfg : PaymentConfiguration) (env : Env) (req : PaymentRequest)
    (m : PaymentMethod) (d : RiskAssessment)
    (hInit : s.initialized = true)
    (hVal : env.validationError req = none)
    (hPmS : (env.getPaymentMethod req.paymentMethodId).success = true)
    (hPmD : (env.getPaymentMethod req.paymentMethodId).data = some m)
    (hFE : fraudEnabled cfg = true)
    (hRaS : (assessRiskCore cfg env req).1.success = true)
    (hRaD : (assessRiskCore cfg env req).1.data = some d)
    (hLvl : d.level = RiskLevel.high)
    (hCfg : highRiskConfigured cfg = true) :
    processPaymentRun s cfg env req =
      .ok ({ success := false
             data := some (.riskWrapper d)
             error := none
             errorCode := some "high_risk_payment"
             errorMessage := some "Payment flagged as high risk" },
           (assessRiskCore cfg env req).2) ∧
    ∀ e ∈ (processPaymentCore cfg env req).2,
      e.isDispatch = false ∧ e.isPersist = false := by
  have hcore : processPaymentCore cfg env req =
      ({ success := false
         data := some (.riskWrapper d)
         error := none
         errorCode := some "high_risk_payment"
         errorMessage := some "Payment flagged as high risk" },
       (assessRiskCore cfg env req).2) := by
    simp [processPaymentCore, hVal, hPmS, hPmD, hFE, hRaS, hRaD, hLvl, hCfg]
  constructor
  · simp [processPaymentRun, hInit, hcore]
  · rw [hcore]
    simpa using assessRiskCore_effects_riskOnly cfg env req

/-- Witness for C2 (amended): thresholds 0.8/0.5, internal score 0.9. -/
theorem processPayment_blocks_high_risk_witness :
    processPaymentRun procInit cfgFraud baseEnv sampleRequest =
      .ok ({ success := false
             data := some (.riskWrapper highAssessment)
             error := none
             errorCode := some "high_risk_payment"
             errorMessage := some "Payment flagged as high risk" },
           (assessRiskCore cfgFraud baseEnv sampleRequest).2) ∧
    ∀ e ∈ (processPaymentCore cfgFraud baseEnv sampleRequest).2,
      e.isDispatch = false ∧ e.isPersist = false :=
  processPayment_blocks_high_risk procInit cfgFraud baseEnv sampleRequest
    sampleMethod highAssessment rfl rfl rfl rfl rfl rfl rfl rfl
    (by simp [highRiskConfigured, cfgFraud, cfgDisabled])

/-- C1: with fraud detection enabled, the bound provider exposing a risk
capability whose assessment succeeds with data, and the internal detector
succeeding with data, `assessRisk` returns the merged assessment (after
one provider risk call and one internal call): its score is the max of the
two input scores, hence at least each of them; its level is `high` iff the
combined score reaches the configured `highRisk` threshold (0.8 when the
thresholds object is unset, by `highRiskThreshold`), else `medium` iff it
reaches the `mediumRisk` threshold (default 0.5), else `low`; and its
factors, recommendations and triggered rules are the provider lists
followed by the internal lists, unchanged. -/
theorem assessRisk_merges_provider_and_internal (s : ProcState)
    (cfg : PaymentConfiguration) (env : Env) (req : PaymentRequest)
    (m : PaymentMethod) (provider : ProviderModel)
    (pAssess : PaymentRequest → Result RiskAssessment)
    (pd od : RiskAssessment)
    (hInit : s.initialized = true)
    (hFE : fraudEnabled cfg = true)
    (hPmS : (env.getPaymentMethod req.paymentMethodId).success = true)
    (hPmD : (env.getPaymentMethod req.paymentMethodId).data = some m)
    (hProv : env.getProvider m.type = some provider)
    (hCap : provider.assessRisk = some pAssess)
    (hPS : (pAssess req).success = true)
    (hPD : (pAssess req).data = some pd)
    (hOS : (env.fraudAssess req).success = true)
    (hOD : (env.fraudAssess req).data = some od) :
    assessRiskRun s cfg env req =
      .ok (okResult (mergeAssessments cfg pd od),
           [.providerAssessRisk req, .internalAssessRisk req]) ∧
    (mergeAssessments cfg pd od).score = max pd.score od.score ∧
    pd.score ≤ (mergeAssessments cfg pd od).score ∧
    od.score ≤ (mergeAssessments cfg pd od).score ∧
    ((mergeAssessments cfg pd od).level = RiskLevel.high ↔
       max pd.score od.score ≥ highRiskThreshold cfg) ∧
    (max pd.score od.score < highRiskThreshold cfg →
       ((mergeAssessments cfg pd od).level = RiskLevel.medium ↔
          max pd.score od.score ≥ mediumRiskThreshold cfg)) ∧
    (max pd.score od.score < highRiskThreshold cfg →
       max pd.score od.score < mediumRiskThreshold cfg →
       (mergeAssessments cfg pd od).level = RiskLevel.low) ∧
    (mergeAssessments cfg pd od).factors = pd.factors ++ od.factors ∧
    (mergeAssessments cfg pd od).recommendations =
      pd.recommendations ++ od.recommendations ∧
    (mergeAssessments cfg pd od).triggeredRules =
      pd.triggeredRules ++ od.triggeredRules := by
  have hLevel : (mergeAssessments cfg pd od).level =
      (if max pd.score od.score ≥ highRiskThreshold cfg then RiskLevel.high
       else if max pd.score od.score ≥ mediumRiskThreshold cfg then RiskLevel.medium
       else RiskLevel.low) := rfl
  refine ⟨?_, rfl, le_max_left _ _, le_max_right _ _, ?_, ?_, ?_, rfl, rfl, rfl⟩
  · simp [assessRiskRun, hInit, assessRiskCore, hFE, hPmS, hPmD, hProv, hCap,
      hPS, hPD, hOS, hOD]
  · rw [hLevel]
    split_ifs with h1 h2 <;> simp [h1]
  · intro hlt
    rw [hLevel, if_neg (not_le.mpr hlt)]
    split_ifs with h2 <;> simp [h2]
  · intro hlt1 hlt2
    rw [hLevel, if_neg (not_le.mpr hlt1), if_neg (not_le.mpr hlt2)]

/-- A provider-side medium assessment with score 0.6. -/
def providerAssessment : RiskAssessment :=
  { score := 6/10, level := .medium,
    factors := [{ name := "geo", description := "geo mismatch", impact := 3/10 }],
    recommendations := [{ type := .review, description := "manual review" }],
    triggeredRules := ["geo_rule"] }

/-- A provider exposing the risk capability with the medium assessment. -/
def riskProvider : ProviderModel :=
  { plainProvider with assessRisk := some (fun _ => okResult providerAssessment) }

/-- An environment binding the risk-capable provider. -/
def riskEnv : Env := { baseEnv with getProvider := fun _ => some riskProvider }

/-- Witness for C1: provider score 0.6, internal score 0.9, thresholds
0.8/0.5. -/
theorem assessRisk_merges_provider_and_internal_witness :
    assessRiskRun procInit cfgFraud riskEnv sampleRequest =
      .ok (okResult (mergeAssessments cfgFraud providerAssessment highAssessment),
           [.providerAssessRisk sampleRequest, .internalAssessRisk sampleRequest]) ∧
    (mergeAssessments cfgFraud providerAssessment highAssessment).score =
      max providerAssessment.score highAssessment.score ∧
    providerAssessment.score ≤
      (mergeAssessments cfgFraud providerAssessment highAssessment).score ∧
    highAssessment.score ≤
      (mergeAssessments cfgFraud providerAssessment highAssessment).score ∧
    ((mergeAssessments cfgFraud providerAssessment highAssessment).level =
        RiskLevel.high ↔
       max providerAssessment.score highAssessment.score ≥
         highRiskThreshold cfgFraud) ∧
    (max providerAssessment.score highAssessment.score < highRiskThreshold cfgFraud →
       ((mergeAssessments cfgFraud providerAssessment highAssessment).level =
           RiskLevel.medium ↔
          max providerAssessment.score highAssessment.score ≥
            mediumRiskThreshold cfgFraud)) ∧
    (max providerAssessment.score highAssessment.score < highRiskThreshold cfgFraud →
       max providerAssessment.score highAssessment.score <
         mediumRiskThreshold cfgFraud →
       (mergeAssessments cfgFraud providerAssessment highAssessment).level =
         RiskLevel.low) ∧
    (mergeAssessments cfgFraud providerAssessment highAssessment).factors =
      providerAssessment.factors ++ highAssessment.factors ∧
    (mergeAssessments cfgFraud providerAssessment highAssessment).recommendations =
      providerAssessment.recommendations ++ highAssessment.recommendations ∧
    (mergeAssessments cfgFraud providerAssessment highAssessment).triggeredRules =
      providerAssessment.triggeredRules ++ highAssessment.triggeredRules :=
  assessRisk_merges_provider_and_internal procInit cfgFraud riskEnv sampleRequest
    sampleMethod riskProvider (fun _ => okResult providerAssessment)
    providerAssessment highAssessment rfl rfl rfl rfl rfl rfl rfl rfl rfl rfl

/-- The save effect is emitted exactly for a successful provider envelope
carrying transaction data. -/
theorem savedEffects_mem (r : Result Transaction) (t : Transaction) :
    Effect.saveTransaction t ∈ savedEffects r ↔
      (r.success = true ∧ r.data = some t) := by
  cases hS : r.success <;> cases hD : r.data <;>
    simp [savedEffects, hS, hD, eq_comm]

/-- C4: when validation passes, the payment method resolves, the risk gate
lets the request through, and a provider is bound, `processPayment`
dispatches to the provider's `authorizePayment` exactly when
`request.authorizeOnly` is set and to its `processPayment` otherwise,
returns the provider's envelope verbatim (every envelope field preserved,
the data payload only re-tagged), and emits a `saveTransaction` write for
a transaction iff the provider envelope is successful and carries it. -/
theorem processPayment_dispatch_verbatim (s : ProcState)
    (cfg : PaymentConfiguration) (env : Env) (req : PaymentRequest)
    (m : PaymentMethod) (provider : ProviderModel)
    (hInit : s.initialized = true)
    (hVal : env.validationError req = none)
    (hPmS : (env.getPaymentMethod req.paymentMethodId).success = true)
    (hPmD : (env.getPaymentMethod req.paymentMethodId).data = some m)
    (hProv : env.getProvider m.type = some provider)
    (hRisk : RiskGatePasses cfg env req) :
    processPaymentRun s cfg env req =
      .ok (liftTx (if req.authorizeOnly then provider.authorizePayment req
                   else provider.processPayment req),
           (if fraudEnabled cfg then (assessRiskCore cfg env req).2 else []) ++
             [if req.authorizeOnly then Effect.providerAuthorize req
              else Effect.providerProcess req] ++
             savedEffects (if req.authorizeOnly then provider.authorizePayment req
                           else provider.processPayment req)) ∧
    (∀ r : Result Transaction,
       (liftTx r).success = r.success ∧ (liftTx r).data = r.data.map TxData.tx ∧
       (liftTx r).error = r.error ∧ (liftTx r).errorCode = r.errorCode ∧
       (liftTx r).errorMessage = r.errorMessage) ∧
    (∀ t, Effect.saveTransaction t ∈ (processPaymentCore cfg env req).2 ↔
       ((if req.authorizeOnly then provider.authorizePayment req
         else provider.processPayment req).success = true ∧
        (if req.authorizeOnly then provider.authorizePayment req
         else provider.processPayment req).data = some t)) := by
  have hcore := processPaymentCore_gate_open cfg env req m hVal hPmS hPmD hRisk
  rw [dispatchPayment, hProv] at hcore
  have hpre : ∀ e ∈ (if fraudEnabled cfg then (assessRiskCore cfg env req).2 else []),
      e.isPersist = false := by
    cases hFE : fraudEnabled cfg
    · simp
    · simpa using fun e he => (assessRiskCore_effects_riskOnly cfg env req e he).2
  refine ⟨?_, fun r => ⟨rfl, rfl, rfl, rfl, rfl⟩, ?_⟩
  · simp [processPaymentRun, hInit, hcore]
  · intro t
    have h2 : (processPaymentCore cfg env req).2 =
        (if fraudEnabled cfg then (assessRiskCore cfg env req).2 else []) ++
          [if req.authorizeOnly then Effect.providerAuthorize req
           else Effect.providerProcess req] ++
          savedEffects (if req.authorizeOnly then provider.authorizePayment req
                        else provider.processPayment req) := by
      rw [hcore]
    rw [h2]
    simp only [List.mem_append, List.mem_singleton]
    rw [savedEffects_mem]
    constructor
    · rintro ((hin | hd) | hs)
      · have := hpre _ hin
        simp [Effect.isPersist] at this
      · split at hd <;> cases hd
      · exact hs
    · intro hs
      exact Or.inr hs

/-- Witness for C4: the plain provider succeeds and the transaction is
saved. -/
theorem processPayment_dispatch_verbatim_witness :
    processPaymentRun procInit cfgDisabled baseEnv sampleRequest =
      .ok (liftTx (if sampleRequest.authorizeOnly then
                     plainProvider.authorizePayment sampleRequest
                   else plainProvider.processPayment sampleRequest),
           (if fraudEnabled cfgDisabled then
              (assessRiskCore cfgDisabled baseEnv sampleRequest).2
            else []) ++
             [if sampleRequest.authorizeOnly then
                Effect.providerAuthorize sampleRequest
              else Effect.providerProcess sampleRequest] ++
             savedEffects (if sampleRequest.authorizeOnly then
                             plainProvider.authorizePayment sampleRequest
                           else plainProvider.processPayment sampleRequest)) ∧
    (∀ r : Result Transaction,
       (liftTx r).success = r.success ∧ (liftTx r).data = r.data.map TxData.tx ∧
       (liftTx r).error = r.error ∧ (liftTx r).errorCode = r.errorCode ∧
       (liftTx r).errorMessage = r.errorMessage) ∧
    (∀ t, Effect.saveTransaction t ∈
            (processPaymentCore cfgDisabled baseEnv sampleRequest).2 ↔
       ((if sampleRequest.authorizeOnly then
           plainProvider.authorizePayment sampleRequest
         else plainProvider.processPayment sampleRequest).success = true ∧
        (if sampleRequest.authorizeOnly then
           plainProvider.authorizePayment sampleRequest
         else plainProvider.processPayment sampleRequest).data = some t)) :=
  processPayment_dispatch_verbatim procInit cfgDisabled baseEnv sampleRequest
    sampleMethod plainProvider rfl rfl rfl rfl rfl (Or.inl rfl)

/-- C10: once one call to `initialize` has succeeded, the processor is
initialized, and every later call — under any configuration and any
collaborator behaviour — returns immediately with the state unchanged and
an empty effect trace: no provider is re-registered and no component is
re-initialized. -/
theorem initializeProcessor_idempotent (cfg cfg2 : PaymentConfiguration)
    (f f2 : Option (JSValue × List InitEffect)) (s s1 : ProcState)
    (h : (initializeProcessor cfg f s).1 = .ok s1) :
    s1.initialized = true ∧ initializeProcessor cfg2 f2 s1 = (.ok s1, []) := by
  unfold initializeProcessor at h
  by_cases hs : s.initialized
  · rw [if_pos hs] at h
    simp only [Except.ok.injEq] at h
    subst h
    exact ⟨hs, by simp [initializeProcessor, hs]⟩
  · rw [if_neg hs] at h
    cases f with
    | some p => simp at h
    | none =>
        simp only [Except.ok.injEq] at h
        subst h
        exact ⟨rfl, by simp [initializeProcessor]⟩

/-- Witness for C10: a fresh processor initialized once under the disabled
configuration, then called again under another configuration. -/
theorem initializeProcessor_idempotent_witness :
    ProcState.initialized { initialized := true } = true ∧
    initializeProcessor cfgFraud none { initialized := true } =
      (.ok { initialized := true }, []) :=
  initializeProcessor_idempotent cfgDisabled cfgFraud none none
    { initialized := false } { initialized := true } rfl

end PaymentForge
